import Mathlib

/-!
Verification of the PRTG API client (`netbox_prtg/prtg_client.py`) and its
caller contract (`netbox_prtg/widgets.py`, `netbox_prtg/views.py`).

The client is shallowly embedded: every HTTP interaction is represented by an
explicit outcome value (the parsed result of the call, or the exception class
the Python `requests` library would have raised), the Django cache is an
explicit association list with absolute-time expiry, and the wall clock is an
explicit `now : Nat` parameter.  The Python functions become pure Lean
functions of these explicit inputs; dictionary fields read with
`dict.get(key, default)` become structure fields whose constructor defaults
mirror the Python defaults.

The single Django cache store is keyed by disjoint prefixes
(`prtg_device_...`, `prtg_sensors_...`), so it is modelled here as one
association list per key namespace.
-/

/-- The single-quote character (codepoint 39), used to rebuild the Python
message strings that quote a device name. -/
def squote : String := String.singleton (Char.ofNat 39)

/-- Python `s.lower()`: character-wise ASCII lowercasing (the semantics of
the library toLower, written over the character list so that it evaluates by
kernel reduction). -/
def lowerStr (s : String) : String := ⟨s.data.map Char.toLower⟩

/-- `listStartsWith needle hay`: `needle` is an initial segment of `hay`
(character lists). -/
def listStartsWith : List Char → List Char → Bool
  | [], _ => true
  | _ :: _, [] => false
  | a :: as, b :: bs => a == b && listStartsWith as bs

/-- `listHasSub needle hay`: `needle` occurs contiguously inside `hay`.
This is the semantics of the Python `needle in hay` test on strings. -/
def listHasSub : List Char → List Char → Bool
  | needle, [] => listStartsWith needle []
  | needle, b :: rest =>
      listStartsWith needle (b :: rest) || listHasSub needle rest

/-- Python `needle in hay` for strings. -/
def containsSub (hay needle : String) : Bool :=
  listHasSub needle.toList hay.toList

/-- A PRTG sensor row, as consumed by `get_device_summary`:
`sensor.get("status", "")` and `sensor.get("status_raw", 0)`.  The structure
defaults are exactly the Python `get` defaults, so a sensor built from a dict
missing either key is the structure with that field left at its default. -/
structure Sensor where
  status : String := ""
  status_raw : Int := 0
deriving DecidableEq, Repr

/-- The six status buckets of spec §4.3. -/
inductive Bucket where
  | up | warning | down | paused | unusual | unknown
deriving DecidableEq, Repr

/-- The classification chain of `get_device_summary` (prtg_client.py lines
237-254): first match wins, checked against the lowercased status string and
the numeric `status_raw` code. -/
def classifySensor (s : Sensor) : Bucket :=
  let status := lowerStr s.status
  let raw := s.status_raw
  if containsSub status "up" || raw == 3 then .up
  else if containsSub status "warning" || raw == 4 then .warning
  else if containsSub status "down" || raw == 5 then .down
  else if containsSub status "paused" || raw == 7 || raw == 8 || raw == 9
      || raw == 11 || raw == 12 then .paused
  else if containsSub status "unusual" || raw == 10 then .unusual
  else .unknown

/-- The summary dict built by `get_device_summary`. -/
structure Summary where
  up : Nat := 0
  warning : Nat := 0
  down : Nat := 0
  paused : Nat := 0
  unusual : Nat := 0
  unknown : Nat := 0
  total : Nat := 0
deriving DecidableEq, Repr

/-- `summary[bucket] += 1`. -/
def bumpBucket (s : Summary) : Bucket → Summary
  | .up => { s with up := s.up + 1 }
  | .warning => { s with warning := s.warning + 1 }
  | .down => { s with down := s.down + 1 }
  | .paused => { s with paused := s.paused + 1 }
  | .unusual => { s with unusual := s.unusual + 1 }
  | .unknown => { s with unknown := s.unknown + 1 }

/-- The tally loop of `get_device_summary`: `total` is set to `len(sensors)`
up front, then each sensor increments exactly one bucket. -/
def summarizeSensors (sensors : List Sensor) : Summary :=
  sensors.foldl (fun acc s => bumpBucket acc (classifySensor s))
    { total := sensors.length }

/-- Sum of the six bucket counters of a summary. -/
def bucketSum (s : Summary) : Nat :=
  s.up + s.warning + s.down + s.paused + s.unusual + s.unknown

/-! ## Transport (`_make_request`, prtg_client.py lines 46-89) -/

/-- Outcome of the underlying `requests.get(...)` + `raise_for_status()` +
`.json()` sequence, i.e. which `except` arm (if any) the Python call lands in.
`httpErr` carries the response status code (tested against 401) and the
`str(e)` rendering of the `requests.HTTPError`, which embeds the status code
and reason (`"404 Client Error: ..."`). -/
inductive HttpOutcome (α : Type) where
  | success (body : α)
  | timeout
  | connFailed (msg : String)
  | httpErr (code : Nat) (msg : String)
  | otherReqFailed (msg : String)
  | badJson (msg : String)
deriving DecidableEq, Repr

/-- Result dict of `_make_request`: the parsed JSON body, or an
`{"error": msg}` dict. -/
inductive MakeResult (α : Type) where
  | ok (body : α)
  | err (msg : String)
deriving DecidableEq, Repr

/-- `_make_request` (prtg_client.py lines 46-89): a total function of the HTTP
outcome — every exception arm returns a tagged `{"error": ...}` dict, nothing
is re-raised. -/
def make_request {α : Type} : HttpOutcome α → MakeResult α
  | .success body => .ok body
  | .timeout => .err "Request timed out"
  | .connFailed msg => .err ("Connection failed: " ++ msg)
  | .httpErr code msg =>
      if code == 401 then .err "Authentication failed - check API token"
      else .err ("HTTP error: " ++ msg)
  | .otherReqFailed msg => .err msg
  | .badJson _ => .err "Invalid response from PRTG"

/-! ## Devices, the device cache, and the resolver
(`find_device_by_hostname`, prtg_client.py lines 111-181) -/

/-- A PRTG device row as selected by the resolver: `d.get("name", "")`,
`d.get("host", "")`, `.get("objid")`; the `cached` flag is the provenance
annotation written by the resolver. -/
structure Device where
  objid : Int := 0
  name : String := ""
  host : String := ""
  cached : Bool := false
deriving DecidableEq, Repr

/-- One namespace of the Django cache: an association list of
(key, value, absolute expiry time).  `cache.set(key, v, timeout)` stores the
entry with expiry `now + timeout`; `cache.get(key)` returns the value only
while `now < expiry` (an expired entry is a miss). -/
abbrev CacheNS (α : Type) : Type := List (String × α × Nat)

/-- `cache.get(key)` at time `now`. -/
def cacheGet {α : Type} (c : CacheNS α) (key : String) (now : Nat) : Option α :=
  match c.find? (fun e => e.1 == key) with
  | some (_, v, exp) => if now < exp then some v else none
  | none => none

/-- `cache.set(key, v, timeout)` at time `now`. -/
def cacheSet {α : Type} (c : CacheNS α) (key : String) (v : α) (exp : Nat) :
    CacheNS α :=
  (key, v, exp) :: c.filter (fun e => !(e.1 == key))

/-- `cache.delete(key)`. -/
def cacheDelete {α : Type} (c : CacheNS α) (key : String) : CacheNS α :=
  c.filter (fun e => !(e.1 == key))

/-- The device-cache key: `f"prtg_device_{hostname.lower()}"`. -/
def deviceCacheKey (hostname : String) : String :=
  "prtg_device_" ++ lowerStr hostname

/-- Parsed outcome of one `_make_request("/api/table.json", ...)` call as the
resolver consumes it: either the dict had an `"error"` key, or
`result.get(rows_key, [])` gave a row list (absent key = empty list). -/
inductive QResult (α : Type) where
  | err (msg : String)
  | ok (rows : List α)
deriving DecidableEq, Repr

/-- The candidate-selection loop of `find_device_by_hostname` (lines 157-174):
`break` on the first candidate whose lowercased name or host equals the
lowercased search string; otherwise remember the first candidate. -/
def selectLoop (h : String) : List Device → Option Device → Option Device
  | [], acc => acc
  | d :: ds, acc =>
      if lowerStr d.name == h then some d
      else if lowerStr d.host == h then some d
      else if acc.isNone then selectLoop h ds (some d)
      else selectLoop h ds acc

/-- Selection among returned candidates, `device = None` initially. -/
def selectDevice (devices : List Device) (h : String) : Option Device :=
  selectLoop h devices none

/-- Output of `find_device_by_hostname`: the resolved device (or `None`), the
cache after the call, and how many `/api/table.json` network requests were
issued (0 on a cache hit). -/
structure FindOut where
  device : Option Device
  cache : CacheNS Device
  calls : Nat
deriving Repr

/-- `find_device_by_hostname` (prtg_client.py lines 111-181).  `qName` and
`qHost` are the parsed outcomes of the two possible table queries (filter by
name substring, then — only if the first gave no rows — by host substring).
On a cache hit the cached dict is returned with `cached = True` and no request
is made; a transport error on the first query is a soft `None`; a selected
device is annotated `cached = False`, stored under the lowercased-name key
with the configured TTL, and returned. -/
def find_device_by_hostname (hostname : String) (cache_timeout : Nat)
    (cache : CacheNS Device) (now : Nat) (qName qHost : QResult Device) :
    FindOut :=
  let cache_key := deviceCacheKey hostname
  match cacheGet cache cache_key now with
  | some cached => ⟨some { cached with cached := true }, cache, 0⟩
  | none =>
    match qName with
    | .err _ => ⟨none, cache, 1⟩
    | .ok rows =>
      let devices :=
        if rows.isEmpty then
          match qHost with
          | .err _ => rows
          | .ok rows2 => rows2
        else rows
      if devices.isEmpty then ⟨none, cache, if rows.isEmpty then 2 else 1⟩
      else
        match selectDevice devices (lowerStr hostname) with
        | some d =>
            let d2 := { d with cached := false }
            ⟨some d2, cacheSet cache cache_key d2 (now + cache_timeout),
              if rows.isEmpty then 2 else 1⟩
        | none => ⟨none, cache, if rows.isEmpty then 2 else 1⟩

/-! ## Sensor reader (`get_device_sensors`, lines 183-213) and per-device
summary (`get_device_summary`, lines 215-256) -/

/-- The sensors-cache key: `f"prtg_sensors_{device_id}"`. -/
def sensorsCacheKey (device_id : Int) : String :=
  "prtg_sensors_" ++ toString device_id

/-- Output of `get_device_sensors`: the sensor list, the sensors cache after
the call, and the number of network requests issued. -/
structure SensorsOut where
  sensors : List Sensor
  cache : CacheNS (List Sensor)
  calls : Nat
deriving Repr

/-- `get_device_sensors` (lines 183-213): cache hit returns the cached list
with no request; a transport error returns `[]` (and caches nothing); a
successful query caches and returns the row list. -/
def get_device_sensors (device_id : Int) (cache_timeout : Nat)
    (cache : CacheNS (List Sensor)) (now : Nat) (q : QResult Sensor) :
    SensorsOut :=
  let cache_key := sensorsCacheKey device_id
  match cacheGet cache cache_key now with
  | some cached => ⟨cached, cache, 0⟩
  | none =>
    match q with
    | .err _ => ⟨[], cache, 1⟩
    | .ok rows => ⟨rows, cacheSet cache cache_key rows (now + cache_timeout), 1⟩

/-- `get_device_summary` (lines 215-256): fetch the sensors, then tally. -/
def get_device_summary (device_id : Int) (cache_timeout : Nat)
    (cache : CacheNS (List Sensor)) (now : Nat) (q : QResult Sensor) :
    Summary × CacheNS (List Sensor) × Nat :=
  let out := get_device_sensors device_id cache_timeout cache now q
  (summarizeSensors out.sensors, out.cache, out.calls)

/-- `get_device_url` (lines 258-268). -/
def get_device_url (base_url : String) (device_id : Int) : String :=
  base_url ++ "/device.htm?id=" ++ toString device_id

/-! ## Groups (`find_group_by_name` lines 270-300,
`get_or_create_import_group` lines 302-349) -/

/-- A PRTG group row.  `objid` is `Option` because the provisioner reads it
with `import_group.get("objid", 1)`. -/
structure PrtgGroup where
  objid : Option Int := none
  name : String := ""
deriving DecidableEq, Repr

/-- `import_group.get("objid", 1)`. -/
def groupObjidD (g : PrtgGroup) : Int := g.objid.getD 1

/-- The exact-match loop at the end of `find_group_by_name` (lines 296-300):
first group whose lowercased name equals the lowercased search name. -/
def findExactGroup (group_name_lower : String) : List PrtgGroup → Option PrtgGroup
  | [] => none
  | g :: gs =>
      if lowerStr g.name == group_name_lower then some g
      else findExactGroup group_name_lower gs

/-- `find_group_by_name` (lines 270-300): transport error is a soft `None`;
otherwise scan the returned rows for a case-insensitive exact name match. -/
def find_group_by_name (group_name : String) (q : QResult PrtgGroup) :
    Option PrtgGroup :=
  match q with
  | .err _ => none
  | .ok groups => findExactGroup (lowerStr group_name) groups

/-- Result of `get_or_create_import_group` as `export_device_from_netbox`
consumes it: a group dict, an `{"error": ...}` dict, or `None`. -/
inductive GroupResult where
  | found (g : PrtgGroup)
  | errRes (msg : String)
  | failed
deriving DecidableEq, Repr

/-- Outcome of the `addgroup.htm` HTTP call inside
`get_or_create_import_group` (lines 329-349). -/
inductive AddGroupOutcome where
  | ok
  | reqErr (msg : String)
deriving DecidableEq, Repr

/-- `get_or_create_import_group` (lines 302-349): return an existing group;
otherwise issue the creation call (`None` if it raises) and re-look-up by
name (an `{"error": ...}` dict if the new group still cannot be found). -/
def get_or_create_import_group (qFind : QResult PrtgGroup)
    (addOutcome : AddGroupOutcome) (qRefind : QResult PrtgGroup) : GroupResult :=
  match find_group_by_name "NetBox Import" qFind with
  | some g => .found g
  | none =>
    match addOutcome with
    | .reqErr _ => .failed
    | .ok =>
      match find_group_by_name "NetBox Import" qRefind with
      | some g => .found g
      | none => .errRes "Group created but could not be found"

/-! ## Provisioner (`create_device` lines 351-426,
`export_device_from_netbox` lines 428-467) -/

/-- Outcome of the `adddevice2.htm` HTTP call in `create_device`: the
response status code and body text when `raise_for_status()` does not raise,
or the exception arm it lands in. -/
inductive CreateHttpOutcome where
  | ok (status : Nat) (text : String)
  | httpErr (code : Nat) (msg : String)
  | reqErr (msg : String)
deriving DecidableEq, Repr

/-- Result dict of `create_device` / `export_device_from_netbox`:
`conflict` is the already-exists dict `{"error", "device_id", "device_url"}`,
`created` is a `{"success": True, ...}` dict with optional id and viewer URL,
`err` is a plain `{"error": msg}` dict. -/
inductive PResult where
  | conflict (msg : String) (device_id : Int) (device_url : String)
  | created (device_id : Option Int) (device_url : Option String)
      (msg : String)
  | err (msg : String)
deriving DecidableEq, Repr

/-- Output of `create_device`: the result dict, the device cache after the
call, how many table queries the post-creation re-resolution issued
(0 when it was answered from the cache), and the parent group id the
creation request was issued with. -/
structure CreateOut where
  result : PResult
  cache : CacheNS Device
  findCalls : Nat
  requestGroupId : Int
deriving Repr

/-- `create_device` (prtg_client.py lines 351-426).  After a non-raising
creation call it re-resolves the name via `find_device_by_hostname` (which
may be answered from the cache); only if that finds a device does it delete
the `prtg_device_{name.lower()}` cache entry and report success with the
resolved id and URL.  Otherwise the response heuristic
(`"objid" in text.lower() or status == 200`) decides between id-less success
and the "response unclear" error.  HTTP 400 is reported specifically. -/
def create_device (name host : String) (group_id : Int) (cache_timeout : Nat)
    (cache : CacheNS Device) (now : Nat) (outcome : CreateHttpOutcome)
    (qName qHost : QResult Device) (base_url : String) : CreateOut :=
  let _ := host
  match outcome with
  | .httpErr code msg =>
      if code == 400 then
        ⟨.err "Bad request - device may already exist or invalid parameters",
          cache, 0, group_id⟩
      else ⟨.err ("HTTP error: " ++ msg), cache, 0, group_id⟩
  | .reqErr msg => ⟨.err msg, cache, 0, group_id⟩
  | .ok status text =>
      let f := find_device_by_hostname name cache_timeout cache now qName qHost
      match f.device with
      | some new_device =>
          let cache_key := deviceCacheKey name
          ⟨.created (some new_device.objid)
              (some (get_device_url base_url new_device.objid))
              ("Device " ++ squote ++ name ++ squote ++ " created in PRTG"),
            cacheDelete f.cache cache_key, f.calls, group_id⟩
      | none =>
          if containsSub (lowerStr text) "objid" || status == 200 then
            ⟨.created none none
                ("Device " ++ squote ++ name ++ squote
                  ++ " created in PRTG (may take a moment to appear)"),
              f.cache, f.calls, group_id⟩
          else
            ⟨.err "Device creation response unclear - check PRTG manually",
              f.cache, f.calls, group_id⟩

/-- Output of `export_device_from_netbox`: the result dict, the device cache
after the call, how many `adddevice2.htm` creation requests were issued, and
the parent group id used for creation (`none` when no creation was
attempted). -/
structure ExportOut where
  result : PResult
  cache : CacheNS Device
  addDeviceCalls : Nat
  usedGroupId : Option Int
deriving Repr

/-- `export_device_from_netbox` (lines 428-467).  `group_result` is the
result of `get_or_create_import_group`; per lines 452-457, a `None` or
error-tagged group result falls back to group id 1 (root probe) with a
warning, and the export still proceeds to `create_device`. -/
def export_device_from_netbox (name host : String) (cache_timeout : Nat)
    (cache : CacheNS Device) (now : Nat) (qName qHost : QResult Device)
    (group_result : GroupResult) (outcome : CreateHttpOutcome)
    (qName2 qHost2 : QResult Device) (base_url : String) : ExportOut :=
  let f := find_device_by_hostname name cache_timeout cache now qName qHost
  match f.device with
  | some existing =>
      ⟨.conflict
          ("Device " ++ squote ++ name ++ squote ++ " already exists in PRTG")
          existing.objid (get_device_url base_url existing.objid),
        f.cache, 0, none⟩
  | none =>
      let group_id : Int :=
        match group_result with
        | .found g => groupObjidD g
        | _ => 1
      let c := create_device name host group_id cache_timeout f.cache now
          outcome qName2 qHost2 base_url
      ⟨c.result, c.cache, 1, some group_id⟩

/-! ## A healthy PRTG server, for end-to-end provisioning properties

The table endpoint filters `filter_name=@sub(x)` / `filter_host=@sub(x)` are
case-insensitive substring matches on the row's name/host; the group query
uses the plain `filter_name=x` exact filter.  Creation calls append a row
with a fresh server-assigned object id. -/

/-- Server-side state: the device and group tables plus the next object id. -/
structure Server where
  devices : List Device := []
  groups : List PrtgGroup := []
  nextId : Int := 1
deriving Repr

/-- Rows returned for `content=devices&filter_name=@sub(sub)`. -/
def serverSearchDevicesByName (s : Server) (sub : String) : List Device :=
  s.devices.filter (fun d => containsSub (lowerStr d.name) (lowerStr sub))

/-- Rows returned for `content=devices&filter_host=@sub(sub)`. -/
def serverSearchDevicesByHost (s : Server) (sub : String) : List Device :=
  s.devices.filter (fun d => containsSub (lowerStr d.host) (lowerStr sub))

/-- Rows returned for `content=groups&filter_name=gname`. -/
def serverSearchGroups (s : Server) (gname : String) : List PrtgGroup :=
  s.groups.filter (fun g => g.name == gname)

/-- Effect of a successful `adddevice2.htm` call. -/
def serverAddDevice (s : Server) (name host : String) : Server :=
  { s with
    devices := s.devices ++ [{ objid := s.nextId, name := name, host := host }]
    nextId := s.nextId + 1 }

/-- Effect of a successful `addgroup.htm` call. -/
def serverAddGroup (s : Server) (gname : String) : Server :=
  { s with
    groups := s.groups ++ [{ objid := some s.nextId, name := gname }]
    nextId := s.nextId + 1 }

/-- `find_device_by_hostname` against a healthy server: both table queries
answered from the server tables. -/
def find_device_srv (hostname : String) (cache_timeout : Nat)
    (server : Server) (cache : CacheNS Device) (now : Nat) : FindOut :=
  find_device_by_hostname hostname cache_timeout cache now
    (.ok (serverSearchDevicesByName server hostname))
    (.ok (serverSearchDevicesByHost server hostname))

/-- `get_or_create_import_group` against a healthy server: the group query is
answered from the group table and the creation call succeeds, appending the
group. -/
def get_or_create_import_group_srv (server : Server) :
    GroupResult × Server :=
  match find_group_by_name "NetBox Import"
      (.ok (serverSearchGroups server "NetBox Import")) with
  | some g => (.found g, server)
  | none =>
    let server1 := serverAddGroup server "NetBox Import"
    match find_group_by_name "NetBox Import"
        (.ok (serverSearchGroups server1 "NetBox Import")) with
    | some g => (.found g, server1)
    | none => (.errRes "Group created but could not be found", server1)

/-- `export_device_from_netbox` against a healthy server: the initial
resolution, group resolution/creation, device creation (HTTP 200) and
post-creation re-resolution are all answered by the server state, which the
creation calls update. -/
def export_device_srv (name host : String) (cache_timeout : Nat)
    (base_url : String) (server : Server) (cache : CacheNS Device)
    (now : Nat) : ExportOut × Server :=
  let f := find_device_srv name cache_timeout server cache now
  match f.device with
  | some existing =>
      (⟨.conflict
          ("Device " ++ squote ++ name ++ squote ++ " already exists in PRTG")
          existing.objid (get_device_url base_url existing.objid),
        f.cache, 0, none⟩, server)
  | none =>
      let gr := get_or_create_import_group_srv server
      let group_id : Int :=
        match gr.1 with
        | .found g => groupObjidD g
        | _ => 1
      let server2 := serverAddDevice gr.2 name host
      let c := create_device name host group_id cache_timeout f.cache now
          (.ok 200 "")
          (.ok (serverSearchDevicesByName server2 name))
          (.ok (serverSearchDevicesByHost server2 name)) base_url
      (⟨c.result, c.cache, 1, some group_id⟩, server2)

/-! ## System-wide aggregate summary -/

/-- Result of the aggregate summary as the dashboard widget consumes it
(widgets.py lines 47-91): an `{"error": ...}` dict, or a summary dict whose
`cached` flag records whether it was served from the aggregate cache. -/
inductive AggResult where
  | err (msg : String)
  | ok (s : Summary) (cached : Bool)
deriving DecidableEq, Repr

/-- The fixed aggregate-summary cache key. -/
def aggCacheKey : String := "prtg_aggregate_summary"

/-- Enumerate the sensors of every listed device, failing on the first
transport failure instead of returning a partial list. -/
def collectAllSensors (sensorsFor : Int → QResult Sensor) :
    List Device → QResult Sensor
  | [] => .ok []
  | d :: ds =>
    match sensorsFor d.objid with
    | .err m => .err m
    | .ok ss =>
      match collectAllSensors sensorsFor ds with
      | .err m => .err m
      | .ok rest => .ok (ss ++ rest)

/-- Modelled from the spec: `get_aggregate_sensor_summary` (spec §4.4
`summarize_all`) is called by the dashboard widget
(widgets.py line 47) but has no definition in `prtg_client.py`.  Per the
spec it computes status-bucket counts across every monitored device, caches
the result under a fixed key with the caller-supplied TTL, and on any
underlying transport failure (device enumeration or any per-device sensor
fetch) returns the tagged error rather than a partial or all-zero summary. -/
def get_aggregate_sensor_summary (cache_timeout : Nat)
    (cache : CacheNS Summary) (now : Nat) (qDevices : QResult Device)
    (sensorsFor : Int → QResult Sensor) : AggResult × CacheNS Summary :=
  match cacheGet cache aggCacheKey now with
  | some s => (.ok s true, cache)
  | none =>
    match qDevices with
    | .err m => (.err m, cache)
    | .ok devs =>
      match collectAllSensors sensorsFor devs with
      | .err m => (.err m, cache)
      | .ok allSensors =>
          (.ok (summarizeSensors allSensors) false,
            cacheSet cache aggCacheKey (summarizeSensors allSensors)
              (now + cache_timeout))

/-! ## Helper lemmas -/

theorem listStartsWith_append (l r : List Char) :
    listStartsWith l (l ++ r) = true := by
  induction l with
  | nil => rfl
  | cons a as ih => simp [listStartsWith, ih]

theorem listStartsWith_self (l : List Char) : listStartsWith l l = true := by
  have h := listStartsWith_append l []
  simpa using h

theorem listHasSub_self (l : List Char) : listHasSub l l = true := by
  cases l with
  | nil => rfl
  | cons b rest => simp [listHasSub, listStartsWith_self]

theorem containsSub_self (s : String) : containsSub s s = true := by
  unfold containsSub
  exact listHasSub_self s.toList

theorem listHasSub_here (l r : List Char) : listHasSub l (l ++ r) = true := by
  cases l with
  | nil => cases r <;> simp [listHasSub, listStartsWith]
  | cons b rest =>
      simp only [listHasSub, Bool.or_eq_true]
      exact Or.inl (by simpa using listStartsWith_append (b :: rest) r)

theorem listHasSub_mid (pre needle post : List Char) :
    listHasSub needle (pre ++ (needle ++ post)) = true := by
  induction pre with
  | nil => simpa using listHasSub_here needle post
  | cons p ps ih => simp [listHasSub, ih]

theorem containsSub_mid (a b c : String) :
    containsSub (a ++ b ++ c) b = true := by
  unfold containsSub
  have h : (a ++ b ++ c).toList = a.toList ++ (b.toList ++ c.toList) := by
    simp [String.toList, String.data_append]
  rw [h]
  exact listHasSub_mid a.toList b.toList c.toList

theorem cacheGet_set_same {α : Type} (c : CacheNS α) (k : String) (v : α)
    (e t : Nat) :
    cacheGet (cacheSet c k v e) k t = if t < e then some v else none := by
  unfold cacheGet cacheSet
  rw [List.find?_cons_of_pos _ (by simp)]

theorem cacheGet_delete {α : Type} (c : CacheNS α) (k : String) (t : Nat) :
    cacheGet (cacheDelete c k) k t = none := by
  unfold cacheGet cacheDelete
  rw [List.find?_eq_none.mpr]
  intro x hx
  simp only [List.mem_filter, Bool.not_eq_eq_eq_not, Bool.not_true] at hx
  simp [hx.2]

theorem bucketSum_bump (s : Summary) (b : Bucket) :
    bucketSum (bumpBucket s b) = bucketSum s + 1 := by
  cases b <;> simp [bumpBucket, bucketSum] <;> omega

theorem total_bump (s : Summary) (b : Bucket) :
    (bumpBucket s b).total = s.total := by
  cases b <;> rfl

theorem foldl_bump_bucketSum (l : List Sensor) : ∀ acc : Summary,
    bucketSum (l.foldl (fun a s => bumpBucket a (classifySensor s)) acc)
      = bucketSum acc + l.length := by
  induction l with
  | nil => intro acc; simp
  | cons x xs ih =>
      intro acc
      simp only [List.foldl_cons, ih, bucketSum_bump, List.length_cons]
      omega

theorem foldl_bump_total (l : List Sensor) : ∀ acc : Summary,
    (l.foldl (fun a s => bumpBucket a (classifySensor s)) acc).total
      = acc.total := by
  induction l with
  | nil => intro acc; rfl
  | cons x xs ih =>
      intro acc
      simp only [List.foldl_cons, ih, total_bump]

/-! ## Claims -/

/-- C4: sensor classification is total and deterministic — every
(status string, status code) pair lands in exactly one of the six buckets —
so in every summary the six bucket counts sum to `total`; and the spec
example `[{status:"Up"}, {status:"Down"}, {status:"Warning"},
{status_raw:7}]` yields
`{up:1, warning:1, down:1, paused:1, unusual:0, unknown:0, total:4}`. -/
theorem c4_classification_partition :
    (∀ s : Sensor, ∃! b : Bucket, classifySensor s = b)
    ∧ (∀ sensors : List Sensor,
        bucketSum (summarizeSensors sensors) = (summarizeSensors sensors).total)
    ∧ summarizeSensors [⟨"Up", 0⟩, ⟨"Down", 0⟩, ⟨"Warning", 0⟩, ⟨"", 7⟩]
        = ⟨1, 1, 1, 1, 0, 0, 4⟩ := by
  refine ⟨fun s => ⟨classifySensor s, rfl, fun b hb => hb.symm⟩,
    fun l => ?_, by decide⟩
  unfold summarizeSensors
  rw [foldl_bump_bucketSum, foldl_bump_total]
  simp [bucketSum]

/-- C4 witness: the partition property evaluated at the spec example list. -/
theorem c4_classification_partition_witness :
    bucketSum (summarizeSensors [⟨"Up", 0⟩, ⟨"Down", 0⟩, ⟨"Warning", 0⟩, ⟨"", 7⟩])
      = (summarizeSensors [⟨"Up", 0⟩, ⟨"Down", 0⟩, ⟨"Warning", 0⟩, ⟨"", 7⟩]).total :=
  c4_classification_partition.2.1 [⟨"Up", 0⟩, ⟨"Down", 0⟩, ⟨"Warning", 0⟩, ⟨"", 7⟩]

/-- C5: `_make_request` never raises to its caller: it is a total function of
the HTTP outcome; each failure mode maps to its own tagged `{"error": ...}`
result — timeout, connection failure, HTTP 401 with the distinct
authentication message, other HTTP errors whose message embeds the status
code (the `str(e)` of a `requests.HTTPError` starts with the code), and
malformed/non-JSON responses — while success returns the parsed body. -/
theorem c5_transport_tagged_errors (α : Type) (b : α) (m r : String)
    (code : Nat) :
    make_request (.success b) = .ok b
    ∧ make_request (.timeout : HttpOutcome α) = .err "Request timed out"
    ∧ make_request (.connFailed m : HttpOutcome α)
        = .err ("Connection failed: " ++ m)
    ∧ make_request (.httpErr 401 r : HttpOutcome α)
        = .err "Authentication failed - check API token"
    ∧ make_request (.httpErr code r : HttpOutcome α)
        = (if code == 401 then .err "Authentication failed - check API token"
           else .err ("HTTP error: " ++ r))
    ∧ containsSub ("HTTP error: " ++ toString code ++ (" " ++ r))
        (toString code) = true
    ∧ make_request (.otherReqFailed m : HttpOutcome α) = .err m
    ∧ make_request (.badJson m : HttpOutcome α)
        = .err "Invalid response from PRTG"
    ∧ (∀ o : HttpOutcome α,
        (∃ bb, make_request o = .ok bb) ↔ ∃ bb, o = .success bb) := by
  refine ⟨rfl, rfl, rfl, rfl, rfl, containsSub_mid "HTTP error: "
    (toString code) (" " ++ r), rfl, rfl, fun o => ?_⟩
  cases o <;> simp [make_request]
  split <;> simp

/-- C5 witness: the theorem evaluated at a concrete timeout outcome and a
concrete non-401 HTTP error. -/
theorem c5_transport_tagged_errors_witness :
    make_request (.timeout : HttpOutcome Nat) = .err "Request timed out"
    ∧ make_request (.httpErr 500 "500 Server Error" : HttpOutcome Nat)
        = (if (500 : Nat) == 401
           then .err "Authentication failed - check API token"
           else .err ("HTTP error: " ++ "500 Server Error")) :=
  ⟨(c5_transport_tagged_errors Nat 0 "" "500 Server Error" 500).2.1,
    (c5_transport_tagged_errors Nat 0 "" "500 Server Error" 500).2.2.2.2.1⟩

theorem find_hit (h : String) (ttl : Nat) (cache : CacheNS Device) (now : Nat)
    (qN qH : QResult Device) (d : Device)
    (hhit : cacheGet cache (deviceCacheKey h) now = some d) :
    find_device_by_hostname h ttl cache now qN qH
      = ⟨some { d with cached := true }, cache, 0⟩ := by
  simp [find_device_by_hostname, hhit]

theorem find_miss_device_some (h : String) (ttl : Nat) (cache : CacheNS Device)
    (now : Nat) (qN qH : QResult Device) (d : Device)
    (hmiss : cacheGet cache (deviceCacheKey h) now = none)
    (hdev : (find_device_by_hostname h ttl cache now qN qH).device = some d) :
    d.cached = false
    ∧ (find_device_by_hostname h ttl cache now qN qH).cache
        = cacheSet cache (deviceCacheKey h) d (now + ttl)
    ∧ (find_device_by_hostname h ttl cache now qN qH).calls ≥ 1 := by
  cases qN with
  | err m => simp [find_device_by_hostname, hmiss] at hdev
  | ok rows =>
    by_cases hre : rows.isEmpty
    · cases qH with
      | err m2 =>
          simp only [find_device_by_hostname, hmiss, hre] at hdev ⊢
          simp only [if_true] at hdev ⊢
          simp [hre] at hdev
      | ok rows2 =>
          by_cases hr2 : rows2.isEmpty
          · simp [find_device_by_hostname, hmiss, hre, hr2] at hdev
          · cases hsel : selectDevice rows2 (lowerStr h) with
            | none => simp [find_device_by_hostname, hmiss, hre, hr2, hsel] at hdev
            | some sel =>
                simp only [find_device_by_hostname, hmiss, hre, hr2, hsel, if_true, if_false] at hdev ⊢
                simp [hre, hr2, hsel] at hdev ⊢
                subst hdev
                simp
    · cases hsel : selectDevice rows (lowerStr h) with
      | none => simp [find_device_by_hostname, hmiss, hre, hsel] at hdev
      | some sel =>
          simp [find_device_by_hostname, hmiss, hre, hsel] at hdev ⊢
          subst hdev
          simp

theorem find_miss_calls (h : String) (ttl : Nat) (cache : CacheNS Device)
    (now : Nat) (qN qH : QResult Device)
    (hmiss : cacheGet cache (deviceCacheKey h) now = none) :
    (find_device_by_hostname h ttl cache now qN qH).calls ≥ 1 := by
  cases qN with
  | err m => simp [find_device_by_hostname, hmiss]
  | ok rows =>
    by_cases hre : rows.isEmpty
    · cases qH with
      | err m2 => simp [find_device_by_hostname, hmiss, hre]
      | ok rows2 =>
          cases hsel : selectDevice rows2 (lowerStr h) <;>
            by_cases hr2 : rows2.isEmpty <;>
            simp [find_device_by_hostname, hmiss, hre, hr2, hsel]
    · cases hsel : selectDevice rows (lowerStr h) <;>
        simp [find_device_by_hostname, hmiss, hre, hsel]

theorem selectLoop_spec (h : String) : ∀ (l : List Device) (acc : Option Device),
    selectLoop h l acc
      = match l.find? (fun d => lowerStr d.name == h || lowerStr d.host == h) with
        | some d => some d
        | none => match acc with | some a => some a | none => l.head? := by
  intro l
  induction l with
  | nil => intro acc; cases acc <;> rfl
  | cons d ds ih =>
      intro acc
      by_cases h1 : (lowerStr d.name == h) = true
      · simp [selectLoop, h1, List.find?_cons_of_pos]
      · by_cases h2 : (lowerStr d.host == h) = true
        · simp [selectLoop, h1, h2, List.find?_cons_of_pos]
        · have hp : ¬ ((lowerStr d.name == h || lowerStr d.host == h) = true) := by
            simp [h1, h2]
          have hstep : List.find?
              (fun d : Device => lowerStr d.name == h || lowerStr d.host == h) (d :: ds)
              = List.find?
                (fun d : Device => lowerStr d.name == h || lowerStr d.host == h) ds :=
            List.find?_cons_of_neg _ hp
          rw [hstep]
          cases acc with
          | none =>
              simp only [selectLoop, h1, h2, if_false, Bool.false_eq_true,
                Option.isNone_none, if_true, ih]
              cases hf : ds.find?
                  (fun d => lowerStr d.name == h || lowerStr d.host == h) <;>
                simp [hf]
          | some a =>
              simp only [selectLoop, h1, h2, if_false, Bool.false_eq_true,
                Option.isNone_some, ih]

/-- C6: if the sensors cache misses and the transport call fetching a
device's sensors fails, `get_device_sensors` returns the empty list (it does
not raise and does not return an error result), and `get_device_summary`
over it is the all-zero summary with `total = 0`. -/
theorem c6_sensor_error_soft_empty (device_id : Int) (cache_timeout : Nat)
    (cache : CacheNS (List Sensor)) (now : Nat) (m : String)
    (hmiss : cacheGet cache (sensorsCacheKey device_id) now = none) :
    get_device_sensors device_id cache_timeout cache now (.err m)
      = ⟨[], cache, 1⟩
    ∧ get_device_summary device_id cache_timeout cache now (.err m)
      = (⟨0, 0, 0, 0, 0, 0, 0⟩, cache, 1) := by
  constructor
  · simp [get_device_sensors, hmiss]
  · simp [get_device_summary, get_device_sensors, hmiss]
    rfl

/-- C6 witness: device 5, empty sensors cache, timed-out transport call. -/
theorem c6_sensor_error_soft_empty_witness :
    get_device_summary 5 60 [] 0 (.err "Request timed out")
      = (⟨0, 0, 0, 0, 0, 0, 0⟩, [], 1) :=
  (c6_sensor_error_soft_empty 5 60 [] 0 "Request timed out" rfl).2

/-- C2 counterexample: with candidate list
`[{name:"gw", host:"sw1"}, {name:"SW1", host:"10.0.0.1"}]` and search name
"SW1", the resolver returns the first candidate — an exact host match whose
name is not an exact match — even though the list contains an exact
name match.  The selection loop breaks on the first exact name-or-host match
in server order, so exact name matches are not globally preferred over exact
host matches. -/
theorem c2_counterexample :
    (find_device_by_hostname "SW1" 60 [] 0
        (.ok [⟨1, "gw", "sw1", false⟩, ⟨2, "SW1", "10.0.0.1", false⟩])
        (.ok [])).device
      = some ⟨1, "gw", "sw1", false⟩
    ∧ lowerStr "gw" ≠ lowerStr "SW1"
    ∧ ([⟨1, "gw", "sw1", false⟩, ⟨2, "SW1", "10.0.0.1", false⟩]
        : List Device).any (fun d => lowerStr d.name == lowerStr "SW1")
      = true := by decide

/-- C2 (amended): the resolver selects the first candidate in server order
whose name or host matches the searched name case-insensitively exactly
(name and host checked in that order within one candidate, but with no
preference of a later exact name match over an earlier exact host match);
if no candidate matches exactly, the first candidate is selected.  In
particular, for the spec example `[{name:"SW1"}, {name:"sw1-backup"}]` and
search name "SW1", the exact-name match is returned in either list order. -/
theorem c2_first_exact_match_selection :
    (∀ (l : List Device) (h : String),
        selectDevice l h
          = match l.find?
              (fun d => lowerStr d.name == h || lowerStr d.host == h) with
            | some d => some d
            | none => l.head?)
    ∧ (find_device_by_hostname "SW1" 60 [] 0
        (.ok [⟨1, "SW1", "10.0.0.1", false⟩, ⟨2, "sw1-backup", "10.0.0.2", false⟩])
        (.ok [])).device
      = some ⟨1, "SW1", "10.0.0.1", false⟩
    ∧ (find_device_by_hostname "SW1" 60 [] 0
        (.ok [⟨2, "sw1-backup", "10.0.0.2", false⟩, ⟨1, "SW1", "10.0.0.1", false⟩])
        (.ok [])).device
      = some ⟨1, "SW1", "10.0.0.1", false⟩ := by
  refine ⟨fun l h => ?_, by decide, by decide⟩
  have hs := selectLoop_spec h l none
  simpa [selectDevice] using hs

/-- C2 witness: the amended selection rule evaluated on the spec example. -/
theorem c2_first_exact_match_selection_witness :
    selectDevice
        [⟨1, "SW1", "10.0.0.1", false⟩, ⟨2, "sw1-backup", "10.0.0.2", false⟩]
        (lowerStr "SW1")
      = match
          ([⟨1, "SW1", "10.0.0.1", false⟩, ⟨2, "sw1-backup", "10.0.0.2", false⟩]
            : List Device).find?
            (fun d => lowerStr d.name == lowerStr "SW1"
              || lowerStr d.host == lowerStr "SW1") with
        | some d => some d
        | none =>
            ([⟨1, "SW1", "10.0.0.1", false⟩, ⟨2, "sw1-backup", "10.0.0.2", false⟩]
              : List Device).head? :=
  c2_first_exact_match_selection.1
    [⟨1, "SW1", "10.0.0.1", false⟩, ⟨2, "sw1-backup", "10.0.0.2", false⟩]
    (lowerStr "SW1")

/-- C9: resolver cache provenance.  The device cache key is determined by the
lowercased name (two names share an entry iff their lowercasings agree); a
cache hit returns the cached device annotated `cached = true` with no
network call; a fresh lookup that selects a device returns it annotated
`cached = false` and stores exactly that value under the key with the
configured TTL (so it is served back until the TTL expires), having made at
least one network call; a cache miss always causes a network call; and a
stored entry whose TTL has passed reads back as a miss. -/
theorem c9_resolver_cache_provenance :
    (∀ n1 n2 : String,
        deviceCacheKey n1 = deviceCacheKey n2 ↔ lowerStr n1 = lowerStr n2)
    ∧ (∀ (h : String) (ttl : Nat) (cache : CacheNS Device) (now : Nat)
        (d : Device) (qN qH : QResult Device),
        cacheGet cache (deviceCacheKey h) now = some d →
        find_device_by_hostname h ttl cache now qN qH
          = ⟨some { d with cached := true }, cache, 0⟩)
    ∧ (∀ (h : String) (ttl : Nat) (cache : CacheNS Device) (now : Nat)
        (qN qH : QResult Device) (d : Device),
        cacheGet cache (deviceCacheKey h) now = none →
        (find_device_by_hostname h ttl cache now qN qH).device = some d →
        d.cached = false
        ∧ (find_device_by_hostname h ttl cache now qN qH).cache
            = cacheSet cache (deviceCacheKey h) d (now + ttl)
        ∧ (find_device_by_hostname h ttl cache now qN qH).calls ≥ 1
        ∧ (∀ t, t < now + ttl →
            cacheGet (find_device_by_hostname h ttl cache now qN qH).cache
              (deviceCacheKey h) t = some d))
    ∧ (∀ (h : String) (ttl : Nat) (cache : CacheNS Device) (now : Nat)
        (qN qH : QResult Device),
        cacheGet cache (deviceCacheKey h) now = none →
        (find_device_by_hostname h ttl cache now qN qH).calls ≥ 1)
    ∧ (∀ (c : CacheNS Device) (k : String) (v : Device) (e t : Nat),
        e ≤ t → cacheGet (cacheSet c k v e) k t = none) := by
  refine ⟨fun n1 n2 => ⟨fun hk => ?_, fun hl => by simp [deviceCacheKey, hl]⟩,
    fun h ttl cache now d qN qH hhit => find_hit h ttl cache now qN qH d hhit,
    fun h ttl cache now qN qH d hmiss hdev => ?_,
    fun h ttl cache now qN qH hmiss => find_miss_calls h ttl cache now qN qH hmiss,
    fun c k v e t het => ?_⟩
  · have hd := congrArg String.data hk
    simp only [deviceCacheKey, String.data_append] at hd
    exact String.ext (List.append_cancel_left hd)
  · obtain ⟨hc, hcache, hcalls⟩ :=
      find_miss_device_some h ttl cache now qN qH d hmiss hdev
    refine ⟨hc, hcache, hcalls, fun t ht => ?_⟩
    rw [hcache, cacheGet_set_same, if_pos ht]
  · rw [cacheGet_set_same, if_neg (by omega)]

/-- C9 witness: a concrete hit (annotated `cached = true`, no network call),
a concrete fresh lookup (annotated `cached = false`, stored under the key),
and a concrete expired entry reading back as a miss. -/
theorem c9_resolver_cache_provenance_witness :
    find_device_by_hostname "SW1" 60
        [("prtg_device_sw1", ⟨7, "SW1", "10.0.0.1", false⟩, 100)] 50
        (.ok []) (.ok [])
      = ⟨some ⟨7, "SW1", "10.0.0.1", true⟩,
          [("prtg_device_sw1", ⟨7, "SW1", "10.0.0.1", false⟩, 100)], 0⟩
    ∧ ((find_device_by_hostname "SW1" 60 [] 0
          (.ok [⟨7, "SW1", "10.0.0.1", false⟩]) (.ok [])).device
        = some ⟨7, "SW1", "10.0.0.1", false⟩
      → (⟨7, "SW1", "10.0.0.1", false⟩ : Device).cached = false)
    ∧ cacheGet (cacheSet [] "prtg_device_sw1" (⟨7, "SW1", "10.0.0.1", false⟩ : Device) 60)
        "prtg_device_sw1" 61 = none := by
  refine ⟨c9_resolver_cache_provenance.2.1 "SW1" 60
      [("prtg_device_sw1", ⟨7, "SW1", "10.0.0.1", false⟩, 100)] 50
      ⟨7, "SW1", "10.0.0.1", false⟩ (.ok []) (.ok []) (by decide),
    fun hdev => (c9_resolver_cache_provenance.2.2.1 "SW1" 60 [] 0
      (.ok [⟨7, "SW1", "10.0.0.1", false⟩]) (.ok [])
      ⟨7, "SW1", "10.0.0.1", false⟩ (by decide) hdev).1,
    c9_resolver_cache_provenance.2.2.2.2 [] "prtg_device_sw1"
      ⟨7, "SW1", "10.0.0.1", false⟩ 60 61 (by omega)⟩

/-- C10: when the creation HTTP request completes with status code 200,
`create_device` always returns a success dict — with the re-resolved id and
viewer URL when the post-creation re-resolution finds the device, without an
id otherwise — so the final "Device creation response unclear" error branch
is unreachable for status-200 responses. -/
theorem c10_status200_always_success (name host : String) (group_id : Int)
    (ttl : Nat) (cache : CacheNS Device) (now : Nat) (text : String)
    (qN qH : QResult Device) (base : String) :
    (create_device name host group_id ttl cache now (.ok 200 text)
        qN qH base).result
      = (match (find_device_by_hostname name ttl cache now qN qH).device with
         | some d => PResult.created (some d.objid)
             (some (get_device_url base d.objid))
             ("Device " ++ squote ++ name ++ squote ++ " created in PRTG")
         | none => PResult.created none none
             ("Device " ++ squote ++ name ++ squote
               ++ " created in PRTG (may take a moment to appear)"))
    ∧ ∀ m, (create_device name host group_id ttl cache now (.ok 200 text)
        qN qH base).result ≠ PResult.err m := by
  cases hdev : (find_device_by_hostname name ttl cache now qN qH).device with
  | some d => exact ⟨by simp [create_device, hdev], by simp [create_device, hdev]⟩
  | none => exact ⟨by simp [create_device, hdev], by simp [create_device, hdev]⟩

/-- C10 witness: a concrete status-200 creation whose result is not the
"response unclear" error. -/
theorem c10_status200_always_success_witness :
    (create_device "SW1" "10.0.0.1" 1 60 [] 0 (.ok 200 "") (.ok []) (.ok [])
        "http://p").result
      ≠ PResult.err "Device creation response unclear - check PRTG manually" :=
  (c10_status200_always_success "SW1" "10.0.0.1" 1 60 [] 0 "" (.ok [])
    (.ok []) "http://p").2 "Device creation response unclear - check PRTG manually"

/-- C3 counterexample: `create_device` re-resolves BEFORE invalidating.
With a still-valid stale cache entry for the name (old object id 7) while a
fresh search would return the newly created device (object id 99), the
post-creation re-resolution inside `create_device` is answered from the
cache: it makes 0 network calls and the success response carries the stale
id 7 — not the id 99 that the claimed invalidate-then-re-resolve order
would have fetched. -/
theorem c3_counterexample :
    (create_device "SW1" "10.0.0.1" 1 60
        [("prtg_device_sw1", ⟨7, "SW1", "10.0.0.1", false⟩, 100)] 50
        (.ok 200 "") (.ok [⟨99, "SW1", "10.0.0.1", false⟩])
        (.ok [⟨99, "SW1", "10.0.0.1", false⟩]) "http://p").findCalls = 0
    ∧ (create_device "SW1" "10.0.0.1" 1 60
        [("prtg_device_sw1", ⟨7, "SW1", "10.0.0.1", false⟩, 100)] 50
        (.ok 200 "") (.ok [⟨99, "SW1", "10.0.0.1", false⟩])
        (.ok [⟨99, "SW1", "10.0.0.1", false⟩]) "http://p").result
      = PResult.created (some 7) (some "http://p/device.htm?id=7")
          ("Device " ++ squote ++ "SW1" ++ squote ++ " created in PRTG")
    ∧ (7 : Int) ≠ 99 := by decide

/-- C3 (amended): after a successful (status-200) creation, `create_device`
first re-resolves by name — a lookup that may be served from a stale cache
entry rather than a fresh network call — and only then, when re-resolution
succeeds, deletes the cache entry for the lowercased name; consequently the
cache holds no live entry for that name afterwards and the next lookup for
it is a fresh network call.  If re-resolution does not find the device, the
operation still reports success, without an id. -/
theorem c3_invalidate_after_reresolve (name host : String) (group_id : Int)
    (ttl : Nat) (cache : CacheNS Device) (now : Nat) (text : String)
    (qN qH : QResult Device) (base : String) :
    (∀ d, (find_device_by_hostname name ttl cache now qN qH).device = some d →
      (create_device name host group_id ttl cache now (.ok 200 text)
          qN qH base).result
        = PResult.created (some d.objid) (some (get_device_url base d.objid))
            ("Device " ++ squote ++ name ++ squote ++ " created in PRTG")
      ∧ (∀ t, cacheGet
            (create_device name host group_id ttl cache now (.ok 200 text)
              qN qH base).cache (deviceCacheKey name) t = none)
      ∧ (∀ (now2 : Nat) (qN2 qH2 : QResult Device),
          (find_device_by_hostname name ttl
            (create_device name host group_id ttl cache now (.ok 200 text)
              qN qH base).cache now2 qN2 qH2).calls ≥ 1))
    ∧ ((find_device_by_hostname name ttl cache now qN qH).device = none →
      (create_device name host group_id ttl cache now (.ok 200 text)
          qN qH base).result
        = PResult.created none none
            ("Device " ++ squote ++ name ++ squote
              ++ " created in PRTG (may take a moment to appear)")) := by
  constructor
  · intro d hdev
    have hcache : (create_device name host group_id ttl cache now (.ok 200 text)
        qN qH base).cache
        = cacheDelete (find_device_by_hostname name ttl cache now qN qH).cache
            (deviceCacheKey name) := by
      simp [create_device, hdev]
    refine ⟨by simp [create_device, hdev], fun t => ?_, fun now2 qN2 qH2 => ?_⟩
    · rw [hcache, cacheGet_delete]
    · exact find_miss_calls name ttl _ now2 qN2 qH2
        (by rw [hcache, cacheGet_delete])
  · intro hdev
    simp [create_device, hdev]

/-- C3 (amended) witness: concrete instances of both branches. -/
theorem c3_invalidate_after_reresolve_witness :
    cacheGet (create_device "SW1" "10.0.0.1" 1 60
        [("prtg_device_sw1", ⟨7, "SW1", "10.0.0.1", false⟩, 100)] 50
        (.ok 200 "") (.ok [⟨99, "SW1", "10.0.0.1", false⟩])
        (.ok [⟨99, "SW1", "10.0.0.1", false⟩]) "http://p").cache
      (deviceCacheKey "SW1") 55 = none
    ∧ (create_device "SW1" "10.0.0.1" 1 60 [] 0 (.ok 200 "") (.ok [])
        (.ok []) "http://p").result
      = PResult.created none none
          ("Device " ++ squote ++ "SW1" ++ squote
            ++ " created in PRTG (may take a moment to appear)") :=
  ⟨((c3_invalidate_after_reresolve "SW1" "10.0.0.1" 1 60
      [("prtg_device_sw1", ⟨7, "SW1", "10.0.0.1", false⟩, 100)] 50 ""
      (.ok [⟨99, "SW1", "10.0.0.1", false⟩])
      (.ok [⟨99, "SW1", "10.0.0.1", false⟩]) "http://p").1
      ⟨7, "SW1", "10.0.0.1", true⟩ (by decide)).2.1 55,
    (c3_invalidate_after_reresolve "SW1" "10.0.0.1" 1 60 [] 0 "" (.ok [])
      (.ok []) "http://p").2 (by decide)⟩

/-- C8: when the device does not already resolve and the import-group
lookup/creation result is `None` or an error-tagged dict,
`export_device_from_netbox` falls back to the default root group id 1,
still issues the device-creation call under that id, and with a status-200
creation response the export still reports success. -/
theorem c8_group_fallback (name host : String) (ttl : Nat)
    (cache : CacheNS Device) (now : Nat) (qN qH : QResult Device)
    (gr : GroupResult) (outcome : CreateHttpOutcome)
    (qN2 qH2 : QResult Device) (base : String)
    (hnf : (find_device_by_hostname name ttl cache now qN qH).device = none)
    (hgr : gr = GroupResult.failed ∨ ∃ m, gr = GroupResult.errRes m) :
    (export_device_from_netbox name host ttl cache now qN qH gr outcome
        qN2 qH2 base).usedGroupId = some 1
    ∧ (export_device_from_netbox name host ttl cache now qN qH gr outcome
        qN2 qH2 base).addDeviceCalls = 1
    ∧ (export_device_from_netbox name host ttl cache now qN qH gr outcome
        qN2 qH2 base).result
      = (create_device name host 1 ttl
          (find_device_by_hostname name ttl cache now qN qH).cache now
          outcome qN2 qH2 base).result
    ∧ (∀ text, outcome = .ok 200 text →
        ∃ did durl m2,
          (export_device_from_netbox name host ttl cache now qN qH gr outcome
            qN2 qH2 base).result = PResult.created did durl m2) := by
  have hgid : (match gr with
      | GroupResult.found g => groupObjidD g
      | _ => (1 : Int)) = 1 := by
    rcases hgr with h | ⟨m, h⟩ <;> subst h <;> rfl
  refine ⟨?_, ?_, ?_, ?_⟩
  · rcases hgr with h | ⟨m, h⟩ <;> subst h <;>
      simp [export_device_from_netbox, hnf]
  · rcases hgr with h | ⟨m, h⟩ <;> subst h <;>
      simp [export_device_from_netbox, hnf]
  · rcases hgr with h | ⟨m, h⟩ <;> subst h <;>
      simp [export_device_from_netbox, hnf]
  · intro text htext
    subst htext
    have hres : (export_device_from_netbox name host ttl cache now qN qH gr
        (.ok 200 text) qN2 qH2 base).result
        = (create_device name host 1 ttl
            (find_device_by_hostname name ttl cache now qN qH).cache now
            (.ok 200 text) qN2 qH2 base).result := by
      rcases hgr with h | ⟨m, h⟩ <;> subst h <;>
        simp [export_device_from_netbox, hnf]
    rw [hres]
    cases hdev2 : (find_device_by_hostname name ttl
        (find_device_by_hostname name ttl cache now qN qH).cache now
        qN2 qH2).device with
    | some d =>
        exact ⟨some d.objid, some (get_device_url base d.objid),
          "Device " ++ squote ++ name ++ squote ++ " created in PRTG",
          by simp [create_device, hdev2]⟩
    | none =>
        exact ⟨none, none,
          "Device " ++ squote ++ name ++ squote
            ++ " created in PRTG (may take a moment to appear)",
          by simp [create_device, hdev2]⟩

/-- C8 witness: device absent, group lookup/creation failed (`None`), export
falls back to group id 1 and still creates. -/
theorem c8_group_fallback_witness :
    (export_device_from_netbox "sw1" "10.0.0.1" 60 [] 0 (.ok []) (.ok [])
        GroupResult.failed (.ok 200 "") (.ok []) (.ok [])
        "http://p").usedGroupId = some 1
    ∧ (export_device_from_netbox "sw1" "10.0.0.1" 60 [] 0 (.ok []) (.ok [])
        GroupResult.failed (.ok 200 "") (.ok []) (.ok [])
        "http://p").addDeviceCalls = 1 :=
  ⟨(c8_group_fallback "sw1" "10.0.0.1" 60 [] 0 (.ok []) (.ok [])
      GroupResult.failed (.ok 200 "") (.ok []) (.ok []) "http://p"
      (by decide) (Or.inl rfl)).1,
    (c8_group_fallback "sw1" "10.0.0.1" 60 [] 0 (.ok []) (.ok [])
      GroupResult.failed (.ok 200 "") (.ok []) (.ok []) "http://p"
      (by decide) (Or.inl rfl)).2.1⟩

theorem collectAllSensors_err_of_mem (sf : Int → QResult Sensor) :
    ∀ (devs : List Device) (d : Device) (m : String),
      d ∈ devs → sf d.objid = .err m →
      ∃ m2, collectAllSensors sf devs = .err m2 := by
  intro devs
  induction devs with
  | nil => intro d m hd _; cases hd
  | cons x xs ih =>
      intro d m hd herr
      rcases List.mem_cons.mp hd with h1 | h2
      · subst h1
        exact ⟨m, by simp [collectAllSensors, herr]⟩
      · cases hx : sf x.objid with
        | err mm => exact ⟨mm, by simp [collectAllSensors, hx]⟩
        | ok ss =>
            obtain ⟨m2, hm2⟩ := ih d m h2 herr
            exact ⟨m2, by simp [collectAllSensors, hx, hm2]⟩

/-- C1: the system-wide aggregate summary operation (modelled from the spec,
since `get_aggregate_sensor_summary` is called by the dashboard widget but
absent from `prtg_client.py`) serves a cached summary from the fixed key
with `cached = true`; on a miss it enumerates every monitored device and all
their sensors, returns a tagged error on any underlying transport failure
(device listing or any single device's sensor fetch) instead of a partial or
all-zero summary, and on full success returns the bucket counts over all
devices' sensors and caches them under the fixed key with the supplied
TTL. -/
theorem c1_aggregate_summary (ttl : Nat) (cache : CacheNS Summary)
    (now : Nat) (qD : QResult Device) (sf : Int → QResult Sensor) :
    (∀ s, cacheGet cache aggCacheKey now = some s →
        get_aggregate_sensor_summary ttl cache now qD sf = (.ok s true, cache))
    ∧ (∀ m, cacheGet cache aggCacheKey now = none → qD = .err m →
        get_aggregate_sensor_summary ttl cache now qD sf = (.err m, cache))
    ∧ (∀ devs m, cacheGet cache aggCacheKey now = none → qD = .ok devs →
        collectAllSensors sf devs = .err m →
        get_aggregate_sensor_summary ttl cache now qD sf = (.err m, cache))
    ∧ (∀ devs d m, cacheGet cache aggCacheKey now = none → qD = .ok devs →
        d ∈ devs → sf d.objid = .err m →
        ∃ m2, (get_aggregate_sensor_summary ttl cache now qD sf).1 = .err m2)
    ∧ (∀ devs allS, cacheGet cache aggCacheKey now = none → qD = .ok devs →
        collectAllSensors sf devs = .ok allS →
        get_aggregate_sensor_summary ttl cache now qD sf
          = (.ok (summarizeSensors allS) false,
            cacheSet cache aggCacheKey (summarizeSensors allS) (now + ttl))) := by
  refine ⟨fun s hhit => by simp [get_aggregate_sensor_summary, hhit],
    fun m hmiss hq => by simp [get_aggregate_sensor_summary, hmiss, hq],
    fun devs m hmiss hq hc => by
      simp [get_aggregate_sensor_summary, hmiss, hq, hc],
    fun devs d m hmiss hq hmem herr => ?_,
    fun devs allS hmiss hq hc => by
      simp [get_aggregate_sensor_summary, hmiss, hq, hc]⟩
  obtain ⟨m2, hm2⟩ := collectAllSensors_err_of_mem sf devs d m hmem herr
  exact ⟨m2, by simp [get_aggregate_sensor_summary, hmiss, hq, hm2]⟩

/-- C1 witness: a timed-out device enumeration yields the tagged error, and
a concrete sensor-fetch failure on one of two devices yields a tagged error
rather than a partial summary. -/
theorem c1_aggregate_summary_witness :
    get_aggregate_sensor_summary 300 [] 0 (.err "Request timed out")
        (fun _ => .ok []) = (.err "Request timed out", [])
    ∧ ∃ m2, (get_aggregate_sensor_summary 300 [] 0
        (.ok [⟨1, "a", "h1", false⟩, ⟨2, "b", "h2", false⟩])
        (fun i => if i == 2 then .err "Connection failed: x" else .ok [⟨"Up", 0⟩])).1
      = AggResult.err m2 :=
  ⟨(c1_aggregate_summary 300 [] 0 (.err "Request timed out")
      (fun _ => .ok [])).2.1 "Request timed out" rfl rfl,
    (c1_aggregate_summary 300 [] 0
      (.ok [⟨1, "a", "h1", false⟩, ⟨2, "b", "h2", false⟩])
      (fun i => if i == 2 then .err "Connection failed: x" else .ok [⟨"Up", 0⟩])).2.2.2.1
      [⟨1, "a", "h1", false⟩, ⟨2, "b", "h2", false⟩] ⟨2, "b", "h2", false⟩
      "Connection failed: x" rfl rfl (by decide) (by decide)⟩

/-- C7: `export_device_from_netbox` is idempotent against pre-existing
devices.  Whenever the name already resolves to a device, the export returns
the "already exists" error carrying the existing device's id and viewer URL
and issues no device-creation call.  Consequently, against a healthy server
on which the name does not yet resolve (and whose import group exists),
running the export twice in sequence creates exactly one device: the first
call succeeds with the new server-assigned id, the second returns the
conflict with that same id, and the server's device table grows by exactly
one across both calls. -/
theorem c7_export_idempotent :
    (∀ (name host : String) (ttl : Nat) (cache : CacheNS Device) (now : Nat)
        (qN qH : QResult Device) (gr : GroupResult)
        (outcome : CreateHttpOutcome) (qN2 qH2 : QResult Device)
        (base : String) (d : Device),
        (find_device_by_hostname name ttl cache now qN qH).device = some d →
        (export_device_from_netbox name host ttl cache now qN qH gr outcome
            qN2 qH2 base).result
          = PResult.conflict
              ("Device " ++ squote ++ name ++ squote ++ " already exists in PRTG")
              d.objid (get_device_url base d.objid)
        ∧ (export_device_from_netbox name host ttl cache now qN qH gr outcome
            qN2 qH2 base).addDeviceCalls = 0)
    ∧ (∀ (name host : String) (ttl : Nat) (base : String) (server : Server)
        (cache : CacheNS Device) (now now2 : Nat) (g : PrtgGroup),
        serverSearchDevicesByName server name = [] →
        serverSearchDevicesByHost server name = [] →
        cacheGet cache (deviceCacheKey name) now = none →
        find_group_by_name "NetBox Import"
          (.ok (serverSearchGroups server "NetBox Import")) = some g →
        (export_device_srv name host ttl base server cache now).1.result
          = PResult.created (some server.nextId)
              (some (get_device_url base server.nextId))
              ("Device " ++ squote ++ name ++ squote ++ " created in PRTG")
        ∧ (export_device_srv name host ttl base server cache now).2.devices.length
            = server.devices.length + 1
        ∧ (export_device_srv name host ttl base
              (export_device_srv name host ttl base server cache now).2
              (export_device_srv name host ttl base server cache now).1.cache
              now2).1.result
          = PResult.conflict
              ("Device " ++ squote ++ name ++ squote ++ " already exists in PRTG")
              server.nextId (get_device_url base server.nextId)
        ∧ (export_device_srv name host ttl base
              (export_device_srv name host ttl base server cache now).2
              (export_device_srv name host ttl base server cache now).1.cache
              now2).2.devices.length
          = server.devices.length + 1) := by
  constructor
  · intro name host ttl cache now qN qH gr outcome qN2 qH2 base d hdev
    constructor <;> simp [export_device_from_netbox, hdev]
  · intro name host ttl base server cache now now2 g h1 h2 h3 h4
    have hf1 : find_device_srv name ttl server cache now = ⟨none, cache, 2⟩ := by
      simp [find_device_srv, h1, h2, find_device_by_hostname, h3]
    have hg : get_or_create_import_group_srv server = (.found g, server) := by
      simp [get_or_create_import_group_srv, h4]
    have hsearch2 : serverSearchDevicesByName (serverAddDevice server name host)
        name = [⟨server.nextId, name, host, false⟩] := by
      unfold serverSearchDevicesByName at h1 ⊢
      unfold serverAddDevice
      simp only [List.filter_append, h1, List.nil_append]
      simp [containsSub_self]
    have hfind2 : find_device_by_hostname name ttl cache now
        (.ok [⟨server.nextId, name, host, false⟩])
        (.ok (serverSearchDevicesByHost (serverAddDevice server name host) name))
        = ⟨some ⟨server.nextId, name, host, false⟩,
            cacheSet cache (deviceCacheKey name)
              ⟨server.nextId, name, host, false⟩ (now + ttl), 1⟩ := by
      simp [find_device_by_hostname, h3, selectDevice, selectLoop]
    have he1 : export_device_srv name host ttl base server cache now
        = (⟨PResult.created (some server.nextId)
              (some (get_device_url base server.nextId))
              ("Device " ++ squote ++ name ++ squote ++ " created in PRTG"),
            cacheDelete
              (cacheSet cache (deviceCacheKey name)
                ⟨server.nextId, name, host, false⟩ (now + ttl))
              (deviceCacheKey name),
            1, some (groupObjidD g)⟩, serverAddDevice server name host) := by
      simp only [export_device_srv, hf1, hg]
      simp only [hsearch2]
      simp [create_device, hfind2]
    have hmiss2 : cacheGet
        (cacheDelete
          (cacheSet cache (deviceCacheKey name)
            ⟨server.nextId, name, host, false⟩ (now + ttl))
          (deviceCacheKey name))
        (deviceCacheKey name) now2 = none := cacheGet_delete _ _ _
    have hfind3 : find_device_srv name ttl (serverAddDevice server name host)
        (cacheDelete
          (cacheSet cache (deviceCacheKey name)
            ⟨server.nextId, name, host, false⟩ (now + ttl))
          (deviceCacheKey name)) now2
        = ⟨some ⟨server.nextId, name, host, false⟩,
            cacheSet
              (cacheDelete
                (cacheSet cache (deviceCacheKey name)
                  ⟨server.nextId, name, host, false⟩ (now + ttl))
                (deviceCacheKey name))
              (deviceCacheKey name)
              ⟨server.nextId, name, host, false⟩ (now2 + ttl), 1⟩ := by
      simp [find_device_srv, hsearch2, find_device_by_hostname, hmiss2,
        selectDevice, selectLoop]
    refine ⟨by rw [he1], by rw [he1]; simp [serverAddDevice], ?_, ?_⟩
    · rw [he1]
      simp only [export_device_srv, hfind3]
    · rw [he1]
      simp only [export_device_srv, hfind3]
      simp [serverAddDevice]

/-- C7 witness: a concrete resolved device yields the conflict with no
creation call, and a concrete empty server (with the import group present)
yields success then conflict with exactly one device created. -/
theorem c7_export_idempotent_witness :
    ((export_device_from_netbox "SW1" "10.0.0.1" 60
        [("prtg_device_sw1", ⟨7, "SW1", "10.0.0.1", false⟩, 100)] 50
        (.ok []) (.ok []) GroupResult.failed (.ok 200 "") (.ok []) (.ok [])
        "http://p").result
      = PResult.conflict
          ("Device " ++ squote ++ "SW1" ++ squote ++ " already exists in PRTG")
          7 (get_device_url "http://p" 7)
    ∧ (export_device_from_netbox "SW1" "10.0.0.1" 60
        [("prtg_device_sw1", ⟨7, "SW1", "10.0.0.1", false⟩, 100)] 50
        (.ok []) (.ok []) GroupResult.failed (.ok 200 "") (.ok []) (.ok [])
        "http://p").addDeviceCalls = 0)
    ∧ ((export_device_srv "sw1" "10.0.0.1" 60 "http://p"
          ⟨[], [⟨some 10, "NetBox Import"⟩], 100⟩ [] 0).1.result
      = PResult.created (some 100) (some (get_device_url "http://p" 100))
          ("Device " ++ squote ++ "sw1" ++ squote ++ " created in PRTG")) := by
  constructor
  · exact (c7_export_idempotent.1 "SW1" "10.0.0.1" 60
      [("prtg_device_sw1", ⟨7, "SW1", "10.0.0.1", false⟩, 100)] 50
      (.ok []) (.ok []) GroupResult.failed (.ok 200 "") (.ok []) (.ok [])
      "http://p" ⟨7, "SW1", "10.0.0.1", true⟩ (by decide))
  · exact (c7_export_idempotent.2 "sw1" "10.0.0.1" 60 "http://p"
      ⟨[], [⟨some 10, "NetBox Import"⟩], 100⟩ [] 0 5 ⟨some 10, "NetBox Import"⟩
      (by decide) (by decide) (by decide) (by decide)).1
